import Mathlib

set_option maxRecDepth 8000

/-! Shallow embedding of the UDP file-transfer client in
src/PSI/Client/Client/Client.cpp, together with proofs about the
protocol properties it implements. Byte buffers are modelled as lists of
natural numbers below 256; 32-bit arithmetic is carried out on Nat with
explicit reduction modulo 2 ^ 32 where the C computation can wrap. -/

/-- CRC-32C (iSCSI) polynomial in reversed bit order (POLY in the source). -/
def POLY : Nat := 0x82f63b78

/-- One iteration of the inner bit loop of crc32c:
crc = crc & 1 ? (crc >> 1) ^ POLY : crc >> 1. -/
def crcBit (crc : Nat) : Nat :=
  if crc % 2 = 1 then (crc / 2) ^^^ POLY else crc / 2

/-- k iterations of the bit loop (the source runs it 8 times per byte). -/
def crcBits : Nat → Nat → Nat
  | 0, crc => crc
  | k + 1, crc => crcBits k (crcBit crc)

/-- Value of the C expression (uint32_t)(int)b for a byte b read out of a
signed char: bytes at or above 0x80 are sign-extended before the XOR. The
source declares the crc32c buffer parameter as const char *, so every
buffer byte enters the CRC state through this conversion. -/
def charToUInt32 (b : Nat) : Nat :=
  if b < 128 then b else 0xFFFFFF00 + b

/-- The while loop of crc32c as written in the source: fold the per-byte
update (signed-char XOR, then 8 bit steps) over the buffer. -/
def crcAccCode (crc : Nat) (buf : List Nat) : Nat :=
  buf.foldl (fun c b => crcBits 8 (c ^^^ charToUInt32 b)) crc

/-- crc32c(0, buf, len) as the source computes it: initial and final
complement around the signed-char fold. -/
def crc32cCode (buf : List Nat) : Nat :=
  0xFFFFFFFF ^^^ crcAccCode 0xFFFFFFFF buf

/-- Accumulating fold of the standard CRC-32C, which XORs the plain byte
value into the state. Claim-side definition, used to compare the source
computation against the standard Castagnoli CRC. -/
def crcAccStd (crc : Nat) (buf : List Nat) : Nat :=
  buf.foldl (fun c b => crcBits 8 (c ^^^ b)) crc

/-- Standard CRC-32C of a byte buffer (initial and final complement,
reflected algorithm, polynomial 0x82f63b78). Claim-side definition. -/
def crc32cStd (buf : List Nat) : Nat :=
  0xFFFFFFFF ^^^ crcAccStd 0xFFFFFFFF buf

/-- intToBytes: big-endian 4-byte encoding of a 32-bit value
(arrayOfByte[3 - i] = paramInt >> (i * 8) truncated to a byte). -/
def intToBytes (n : Nat) : List Nat :=
  [n / 2 ^ 24 % 256, n / 2 ^ 16 % 256, n / 2 ^ 8 % 256, n % 256]

/-- Both sendString and the data loop overwrite bytes 4092..4095 of the
4096-byte buffer with the big-endian crc32c of bytes 0..4091 just before
sendto; given the first 4092 buffer bytes this is the transmitted frame. -/
def mkFrame (body : List Nat) : List Nat :=
  body ++ intToBytes (crc32cCode body)

/-- Contents of back_buff after a successful recvfrom: the 16 received
bytes with back_buff[15] overwritten by a terminating 0. -/
def ackOf (r : List Nat) : List Nat := r.take 15 ++ [0]

/-- Test strncmp(back_buff, "OK", 2) == 0. -/
def isOK (bb : List Nat) : Bool := decide (bb.take 2 = [79, 75])

/-- Test strncmp(back_buff, "OKSS", 4) == 0. -/
def isOKSS (bb : List Nat) : Bool := decide (bb.take 4 = [79, 75, 83, 83])

/-- Bandwidth field of a reply: bytes 4..7 read big-endian, as accumulated
by bps = (bps << 8) + (unsigned char)back_buff[n + 4] for n = 0..3. -/
def bpsOf (bb : List Nat) : Nat :=
  ((bb.drop 4).take 4).foldl (fun a b => a * 256 + b) 0

/-- New value of the global sleep_time on an OKSS reply. The source
computes round(((float)4096 / bps) * 1000) in C floating point; this model
uses the exact rounding of 4096000 / bps to the nearest integer with
halves rounded away from zero, written with natural division. For every
bps in [1, 2 ^ 24] the IEEE-754 single- or double-precision evaluation of
the source expression yields exactly this integer (checked exhaustively,
including the four tie cases 65536, 327680, 1638400 and 8192000, whose
intermediate values are exactly representable), and for bps above 2 ^ 24
both the float evaluation and the exact rounding give 0, so the model
agrees with the source for every bps of at least 1. For bps = 0 the source
divides by zero and converts the resulting infinity to an unsigned int,
which has no defined result; theorems about this function therefore
hypothesise 1 ≤ bps. -/
def sleepUpdate (bps : Nat) : Nat := (8192000 + bps) / (2 * bps)

/-- Acknowledgment classification as the specification describes it: a
function of the reply bytes alone. -/
inductive Ack where
  | success : Ack
  | successWithRate : Nat → Ack
  | nonAck : Ack
deriving DecidableEq

/-- Classify a reply buffer per the specification: an OKSS prefix gives
successWithRate carrying the big-endian bytes 4..7, an OK prefix otherwise
gives success, anything else is nonAck. Claim-side definition. -/
def classifyAck (r : List Nat) : Ack :=
  if r.take 4 = [79, 75, 83, 83] then Ack.successWithRate (bpsOf r)
  else if r.take 2 = [79, 75] then Ack.success
  else Ack.nonAck

/-- Output of sprintf(buffer, s) with no variadic arguments, for a format
string s given as its byte list: literal bytes print themselves, the
two-character sequence %% prints one %, and any other use of % (byte 37)
consumes a missing variadic argument, which has no defined result. -/
def sprintfLit : List Nat → Option (List Nat)
  | [] => some []
  | b :: rest =>
    if b = 37 then
      match rest with
      | 37 :: rest2 => (sprintfLit rest2).map (fun l => 37 :: l)
      | _ => none
    else (sprintfLit rest).map (fun l => b :: l)

/-- Body of the frame sendString transmits for the command string s: the
4096-byte buffer is zeroed, sprintf writes its output and a terminating 0
at the start, bytes 4092..4095 are later replaced by the CRC, so the body
is the first 4092 bytes. An output that does not fit the buffer together
with its terminator overflows it, which has no defined result. -/
def sendStringBody (s : List Nat) : Option (List Nat) :=
  match sprintfLit s with
  | none => none
  | some out =>
    if 4096 ≤ out.length + 1 then none
    else some ((out ++ List.replicate (4096 - out.length) 0).take 4092)

/-- ReadAllBytes opens the file in binary mode and reads it whole: the
result is the exact byte contents of the file. -/
def ReadAllBytes (contents : List Nat) : List Nat := contents

/-- Bytes delivered when the digest path reads the same file through a
default-mode (text) ifstream on Windows: a 0x0D 0x0A pair is delivered as
a single 0x0A, and a 0x1A byte (Ctrl-Z) ends the stream. -/
def textRead : List Nat → List Nat
  | [] => []
  | 26 :: _ => []
  | 13 :: 10 :: rest2 => 10 :: textRead rest2
  | b :: rest => b :: textRead rest

/-- Observable behaviour of the channel on one attempt of a retry loop:
sendto failing (nothing transmitted, nothing received), a 16-byte reply
received, or sendto succeeding with recvfrom failing (frame transmitted,
nothing received). -/
inductive AttemptOutcome where
  | sendErr : AttemptOutcome
  | reply : List Nat → AttemptOutcome
  | noReply : AttemptOutcome
deriving DecidableEq

/-- Acknowledgment buffer after one attempt: a received reply overwrites
it (with byte 15 zeroed); otherwise it keeps its previous contents. -/
def stepBB : AttemptOutcome → List Nat → List Nat
  | AttemptOutcome.reply r, _ => ackOf r
  | _, bb => bb

/-- Whether the attempt transmitted the frame (sendto did not fail). -/
def stepSent : AttemptOutcome → Bool
  | AttemptOutcome.sendErr => false
  | _ => true

/-- sleep_time after one attempt of sendString: its OKSS check runs inside
the recvfrom success branch, on the reply just written into back_buff. -/
def stepSleep : AttemptOutcome → Nat → Nat
  | AttemptOutcome.reply r, s =>
    if isOKSS (ackOf r) then sleepUpdate (bpsOf (ackOf r)) else s
  | _, s => s

/-- Result of a retry loop: total attempts, datagrams transmitted, final
acknowledgment buffer, final sleep_time. -/
structure SendRes where
  tries : Nat
  sends : Nat
  bb : List Nat
  sleep : Nat
deriving DecidableEq

/-- The do/while retry loop of sendString: on each iteration one attempt
runs (tries counts them), and the loop continues while the buffer does not
start with OK and tries has not reached 8. Fuelled recursion; the loop
condition stops it before fuel 8 is exhausted. -/
def sendLoopAux (out : Nat → AttemptOutcome) :
    Nat → Nat → Nat → List Nat → Nat → SendRes
  | 0, tries, sends, bb, sleep => ⟨tries, sends, bb, sleep⟩
  | fuel + 1, tries, sends, bb, sleep =>
    let o := out tries
    let bb2 := stepBB o bb
    let sends2 := sends + (if stepSent o then 1 else 0)
    let sleep2 := stepSleep o sleep
    if isOK bb2 = false ∧ tries + 1 ≠ 8 then
      sendLoopAux out fuel (tries + 1) sends2 bb2 sleep2
    else ⟨tries + 1, sends2, bb2, sleep2⟩

/-- Exchange performed by sendString: back_buff starts with the
uninitialized stack contents bb0, up to 8 attempts run. -/
def sendStringRun (out : Nat → AttemptOutcome) (bb0 : List Nat) (sleep0 : Nat) :
    SendRes :=
  sendLoopAux out 8 0 0 bb0 sleep0

/-- Return value of sendString: tries < 8. -/
def sendStringRet (out : Nat → AttemptOutcome) (bb0 : List Nat) (sleep0 : Nat) :
    Bool :=
  decide ((sendStringRun out bb0 sleep0).tries < 8)

/-- The do/while retry loop inside the data-transmission while loop: the
OKSS check runs at the top of each iteration on the current backbuffer
contents, before the attempt, so a rate hint received in a reply is not
applied to sleep_time until control next reaches the top of this loop. -/
def dataLoopAux (out : Nat → AttemptOutcome) :
    Nat → Nat → Nat → List Nat → Nat → SendRes
  | 0, tries, sends, bb, sleep => ⟨tries, sends, bb, sleep⟩
  | fuel + 1, tries, sends, bb, sleep =>
    let sleep1 := if isOKSS bb then sleepUpdate (bpsOf bb) else sleep
    let o := out tries
    let bb2 := stepBB o bb
    let sends2 := sends + (if stepSent o then 1 else 0)
    if isOK bb2 = false ∧ tries + 1 ≠ 8 then
      dataLoopAux out fuel (tries + 1) sends2 bb2 sleep1
    else ⟨tries + 1, sends2, bb2, sleep1⟩

/-- ASCII tag DATA written at the head of every data frame body. -/
def dataTag : List Nat := [68, 65, 84, 65]

/-- Record of one data-frame protocol step: the 4096-byte frame as
transmitted, how many attempts its exchange took, how many datagrams were
sent for it, and the sleep performed after the step (none when the step
failed and the process called exit(1)). -/
structure FrameRecord where
  frame : List Nat
  tries : Nat
  sends : Nat
  sleptAfter : Option Nat
deriving DecidableEq

/-- The data-transmission while loop of _tmain. State: current offset, the
buffer2 contents left over from the previous iteration (uninitialized
stack contents on the first), the backbuffer contents (shared across all
data frames and likewise uninitialized at first), sleep_time, and the
frame index k selecting the outcome schedule out k of the next exchange.
Each iteration writes the DATA tag, the big-endian offset, and the chunk
bytes into the buffer, leaving the remaining buffer bytes unchanged,
appends the CRC of the first 4092 bytes, runs the retry loop, and on
tries = 8 records the failed step and stops (exit(1)); otherwise it
advances the offset by 4084, zeroes the buffer, sleeps for the current
sleep_time and continues. Returns the step records, whether the loop
completed, and the final sleep_time; none when fuel runs out. -/
def streamRun (file : List Nat) (out : Nat → Nat → AttemptOutcome) :
    Nat → Nat → List Nat → List Nat → Nat → Nat →
    Option (List FrameRecord × Bool × Nat)
  | 0, _, _, _, _, _ => none
  | fuel + 1, offset, buf, bb, sleep, k =>
    if offset < file.length then
      let chunkLen := min 4084 (file.length - offset)
      let body := (dataTag ++ intToBytes offset ++ (file.drop offset).take chunkLen
        ++ buf.drop (8 + chunkLen)).take 4092
      let r := dataLoopAux (out k) 8 0 0 bb sleep
      if r.tries = 8 then some ([⟨mkFrame body, r.tries, r.sends, none⟩], false, r.sleep)
      else
        match streamRun file out fuel (offset + 4084) (List.replicate 4096 0)
            r.bb r.sleep (k + 1) with
        | none => none
        | some (recs, ok, sl) =>
          some (⟨mkFrame body, r.tries, r.sends, some r.sleep⟩ :: recs, ok, sl)
    else some ([], true, sleep)

/-- Modelled from the spec: the whole-file digest of the HASH step. The
header md5.h and its implementation are not part of the reviewed sources;
the specification names the digest md5 (HASH=<md5(...)>, and the digest of
the 5-byte file hello must equal the standard digest of those bytes), so
the digest is modelled as standard MD5 per RFC 1321. This is its table of
64 round constants, floor(2 ^ 32 * abs(sin(i + 1))). -/
def md5K : List Nat :=
  [0xd76aa478, 0xe8c7b756, 0x242070db, 0xc1bdceee, 0xf57c0faf, 0x4787c62a,
   0xa8304613, 0xfd469501, 0x698098d8, 0x8b44f7af, 0xffff5bb1, 0x895cd7be,
   0x6b901122, 0xfd987193, 0xa679438e, 0x49b40821, 0xf61e2562, 0xc040b340,
   0x265e5a51, 0xe9b6c7aa, 0xd62f105d, 0x02441453, 0xd8a1e681, 0xe7d3fbc8,
   0x21e1cde6, 0xc33707d6, 0xf4d50d87, 0x455a14ed, 0xa9e3e905, 0xfcefa3f8,
   0x676f02d9, 0x8d2a4c8a, 0xfffa3942, 0x8771f681, 0x6d9d6122, 0xfde5380c,
   0xa4beea44, 0x4bdecfa9, 0xf6bb4b60, 0xbebfbc70, 0x289b7ec6, 0xeaa127fa,
   0xd4ef3085, 0x04881d05, 0xd9d4d039, 0xe6db99e5, 0x1fa27cf8, 0xc4ac5665,
   0xf4292244, 0x432aff97, 0xab9423a7, 0xfc93a039, 0x655b59c3, 0x8f0ccc92,
   0xffeff47d, 0x85845dd1, 0x6fa87e4f, 0xfe2ce6e0, 0xa3014314, 0x4e0811a1,
   0xf7537e82, 0xbd3af235, 0x2ad7d2bb, 0xeb86d391]

/-- Modelled from the spec: MD5 per-round left-rotation amounts. -/
def md5S : List Nat :=
  [7, 12, 17, 22, 7, 12, 17, 22, 7, 12, 17, 22, 7, 12, 17, 22,
   5, 9, 14, 20, 5, 9, 14, 20, 5, 9, 14, 20, 5, 9, 14, 20,
   4, 11, 16, 23, 4, 11, 16, 23, 4, 11, 16, 23, 4, 11, 16, 23,
   6, 10, 15, 21, 6, 10, 15, 21, 6, 10, 15, 21, 6, 10, 15, 21]

/-- Left rotation of a 32-bit value by s places (0 < s < 32). -/
def rotl32 (x s : Nat) : Nat := (x * 2 ^ s) % 2 ^ 32 + x / 2 ^ (32 - s)

/-- Modelled from the spec: MD5 round mixing function. -/
def md5F (i b c d : Nat) : Nat :=
  if i < 16 then (b &&& c) ||| ((0xFFFFFFFF ^^^ b) &&& d)
  else if i < 32 then (d &&& b) ||| ((0xFFFFFFFF ^^^ d) &&& c)
  else if i < 48 then b ^^^ c ^^^ d
  else c ^^^ (b ||| (0xFFFFFFFF ^^^ d))

/-- Modelled from the spec: MD5 message-word index for round i. -/
def md5G (i : Nat) : Nat :=
  if i < 16 then i
  else if i < 32 then (5 * i + 1) % 16
  else if i < 48 then (3 * i + 5) % 16
  else (7 * i) % 16

/-- Little-endian 4-byte encoding of a 32-bit value. -/
def le4 (n : Nat) : List Nat :=
  [n % 256, n / 2 ^ 8 % 256, n / 2 ^ 16 % 256, n / 2 ^ 24 % 256]

/-- Modelled from the spec: MD5 padding — a 0x80 byte, zeros up to 56 mod
64, then the original length in bits as 8 little-endian bytes. -/
def md5Pad (msg : List Nat) : List Nat :=
  let bits := 8 * msg.length % 2 ^ 64
  msg ++ [128] ++ List.replicate ((120 - (msg.length + 1) % 64) % 64) 0
    ++ le4 (bits % 2 ^ 32) ++ le4 (bits / 2 ^ 32)

/-- Little-endian 32-bit word j of a 64-byte block. -/
def md5Word (block : List Nat) (j : Nat) : Nat :=
  block.getD (4 * j) 0 + 256 * block.getD (4 * j + 1) 0
    + 65536 * block.getD (4 * j + 2) 0 + 16777216 * block.getD (4 * j + 3) 0

/-- Modelled from the spec: one MD5 round on the state (a, b, c, d). -/
def md5Round (block : List Nat) (st : Nat × Nat × Nat × Nat) (i : Nat) :
    Nat × Nat × Nat × Nat :=
  let f := (md5F i st.2.1 st.2.2.1 st.2.2.2 + st.1 + md5K.getD i 0
    + md5Word block (md5G i)) % 2 ^ 32
  (st.2.2.2, (st.2.1 + rotl32 f (md5S.getD i 0)) % 2 ^ 32, st.2.1, st.2.2.1)

/-- Modelled from the spec: process one 64-byte block, adding the mixed
state back into the incoming state. -/
def md5Block (st : Nat × Nat × Nat × Nat) (block : List Nat) :
    Nat × Nat × Nat × Nat :=
  let f := (List.range 64).foldl (md5Round block) st
  ((st.1 + f.1) % 2 ^ 32, (st.2.1 + f.2.1) % 2 ^ 32,
   (st.2.2.1 + f.2.2.1) % 2 ^ 32, (st.2.2.2 + f.2.2.2) % 2 ^ 32)

/-- Modelled from the spec: process the padded message 64 bytes at a time
(fuelled recursion; the padded length bounds the number of blocks). -/
def md5Blocks (st : Nat × Nat × Nat × Nat) :
    Nat → List Nat → Nat × Nat × Nat × Nat
  | 0, _ => st
  | fuel + 1, msg =>
    match msg with
    | [] => st
    | _ :: _ => md5Blocks (md5Block st (msg.take 64)) fuel (msg.drop 64)

/-- Modelled from the spec: MD5 digest of a byte sequence, as 16 bytes. -/
def md5Bytes (msg : List Nat) : List Nat :=
  let p := md5Pad msg
  let h := md5Blocks (0x67452301, 0xefcdab89, 0x98badcfe, 0x10325476)
    p.length p
  le4 h.1 ++ le4 h.2.1 ++ le4 h.2.2.1 ++ le4 h.2.2.2

/-- Lower-case hexadecimal digit as an ASCII byte. -/
def hexDigit (d : Nat) : Nat := if d < 10 then 48 + d else 87 + d

/-- Two lower-case hexadecimal digits of one byte. -/
def hexByte (b : Nat) : List Nat := [hexDigit (b / 16), hexDigit (b % 16)]

/-- Modelled from the spec: the 32-character lower-case hexadecimal MD5
digest string (as ASCII bytes) that the HASH step sends. -/
def md5hex (msg : List Nat) : List Nat :=
  (md5Bytes msg).foldr (fun b acc => hexByte b ++ acc) []

/-- Digits written by sprintf for the %ld conversion (fuelled division
loop; n itself bounds the number of digits). -/
def decDigitsAux : Nat → Nat → List Nat → List Nat
  | 0, _, acc => acc
  | fuel + 1, n, acc =>
    if n = 0 then acc else decDigitsAux fuel (n / 10) ((48 + n % 10) :: acc)

/-- Decimal ASCII representation printed by sprintf %ld for a Nat. -/
def decimalBytes (n : Nat) : List Nat :=
  if n = 0 then [48] else decDigitsAux n n []

/-- Command string of the NAME step: sprintf(str, "NAME=%s", fname). -/
def nameCmd (fname : List Nat) : List Nat := [78, 65, 77, 69, 61] ++ fname

/-- Command string of the SIZE step: sprintf(str, "SIZE=%ld", size). -/
def sizeCmd (n : Nat) : List Nat := [83, 73, 90, 69, 61] ++ decimalBytes n

/-- Command string of the HASH step: the bytes HASH= followed by the hex
digest, assembled by character writes into the zeroed str buffer. -/
def hashCmd (hex : List Nat) : List Nat := [72, 65, 83, 72, 61] ++ hex

/-- Command string of the START step. -/
def startCmd : List Nat := [83, 84, 65, 82, 84]

/-- Command string of the STOP step. -/
def stopCmd : List Nat := [83, 84, 79, 80]

/-- One control protocol step: the frame sendString transmits for the
command string s (none when sprintf has no defined output or the output
overflows the frame buffer) together with its exchange result. -/
def controlStep (s : List Nat) (out : Nat → AttemptOutcome) (bb0 : List Nat)
    (sleep : Nat) : Option (List Nat × SendRes) :=
  match sendStringBody s with
  | none => none
  | some body => some (mkFrame body, sendStringRun out bb0 sleep)

/-- Transcript of the whole _tmain transmission: the four control steps,
the data loop, then STOP. Each transcript entry is a protocol frame with
its attempt count. outc i gives the channel outcomes of control step i
(0 NAME, 1 SIZE, 2 HASH, 3 START, 4 STOP), outd those of the data frames;
bbc i is the uninitialized local back_buff of the i-th sendString call,
dbuf0 and dbb0 the uninitialized buffer2 and backbuffer of the data loop.
sleep_time starts at 0 (global initializer) and threads through every
step. Returns the transcript and whether the whole transfer completed;
none when the data-loop fuel runs out or a sprintf result is undefined. -/
def clientRun (fileRaw fname : List Nat) (outc : Nat → Nat → AttemptOutcome)
    (outd : Nat → Nat → AttemptOutcome) (bbc : Nat → List Nat)
    (dbuf0 dbb0 : List Nat) (fuel : Nat) :
    Option (List (List Nat × Nat) × Bool) :=
  let file := ReadAllBytes fileRaw
  let hashed := md5hex (textRead fileRaw)
  match controlStep (nameCmd fname) (outc 0) (bbc 0) 0 with
  | none => none
  | some (f0, r0) =>
    if r0.tries < 8 then
      match controlStep (sizeCmd file.length) (outc 1) (bbc 1) r0.sleep with
      | none => none
      | some (f1, r1) =>
        if r1.tries < 8 then
          match controlStep (hashCmd hashed) (outc 2) (bbc 2) r1.sleep with
          | none => none
          | some (f2, r2) =>
            if r2.tries < 8 then
              match controlStep startCmd (outc 3) (bbc 3) r2.sleep with
              | none => none
              | some (f3, r3) =>
                if r3.tries < 8 then
                  match streamRun file outd fuel 0 dbuf0 dbb0 r3.sleep 0 with
                  | none => none
                  | some (recs, okS, sl) =>
                    let pre := [(f0, r0.tries), (f1, r1.tries), (f2, r2.tries),
                      (f3, r3.tries)] ++ recs.map (fun rec => (rec.frame, rec.tries))
                    if okS then
                      match controlStep stopCmd (outc 4) (bbc 4) sl with
                      | none => none
                      | some (f4, r4) =>
                        some (pre ++ [(f4, r4.tries)], decide (r4.tries < 8))
                    else some (pre, false)
                else some ([(f0, r0.tries), (f1, r1.tries), (f2, r2.tries),
                  (f3, r3.tries)], false)
            else some ([(f0, r0.tries), (f1, r1.tries), (f2, r2.tries)], false)
        else some ([(f0, r0.tries), (f1, r1.tries)], false)
    else some ([(f0, r0.tries)], false)

/-- A plain success reply: OK followed by 14 zero bytes. -/
def okr : List Nat := [79, 75] ++ List.replicate 14 0

/-- A non-acknowledgment reply: 16 bytes of the letter N. -/
def nonr : List Nat := List.replicate 16 78

/-- A success-with-rate reply: OKSS, the bandwidth big-endian, 8 zeros. -/
def okssReply (bps : Nat) : List Nat :=
  [79, 75, 83, 83] ++ intToBytes bps ++ List.replicate 8 0

/-- Channel schedule in which every attempt of every exchange receives a
plain OK reply: the all-exchanges-succeed scenario. -/
def outAllOK : Nat → Nat → AttemptOutcome := fun _ _ => AttemptOutcome.reply okr

/-- Channel schedule for one exchange: non-OK replies on the first seven
attempts, an OK reply on the eighth. -/
def outSeventhenOK : Nat → AttemptOutcome := fun i =>
  if i < 7 then AttemptOutcome.reply nonr else AttemptOutcome.reply okr

/-- Channel schedule of the data loop in which the first frame is
acknowledged with a plain OK and every attempt of every later frame gets
no reply at all (sendto succeeds, recvfrom fails). -/
def outStaleOK : Nat → Nat → AttemptOutcome := fun k _ =>
  if k = 0 then AttemptOutcome.reply okr else AttemptOutcome.noReply

/-- Channel schedule of the data loop in which the first frame is
acknowledged with OKSS at 1 byte per second and every later frame with a
plain OK. -/
def outRateThenOK : Nat → Nat → AttemptOutcome := fun k _ =>
  if k = 0 then AttemptOutcome.reply (okssReply 1) else AttemptOutcome.reply okr

/-- A 4085-byte file (two chunks: 4084 bytes and 1 byte). -/
def fileTwoChunks : List Nat := List.replicate 4085 3

/-- A 4084-byte file (exactly one full chunk) whose first byte is 0x80. -/
def fileHighByte : List Nat := 128 :: List.replicate 4083 0

/-- The 5-byte file hello. -/
def helloFile : List Nat := [104, 101, 108, 108, 111]

/-- Destination path used in concrete runs: the 3 bytes out. -/
def outName : List Nat := [111, 117, 116]

/-- Channel schedule for one exchange: every attempt receives the same
non-acknowledgment reply. -/
def outAllNon : Nat → AttemptOutcome := fun _ => AttemptOutcome.reply nonr

/-! Lemmas about sprintf, the text-mode read, and the retry loops. -/

/-- A format string without the % byte prints literally. -/
theorem sprintfLit_no_pct (s : List Nat) (h : 37 ∉ s) : sprintfLit s = some s := by
  induction s with
  | nil => rfl
  | cons b rest ih =>
    rw [List.mem_cons, not_or] at h
    have hb : ¬(b = 37) := fun e => h.1 e.symm
    rw [show sprintfLit (b :: rest)
        = (sprintfLit rest).map (fun l => b :: l) from by
      rw [sprintfLit.eq_def]
      simp [hb]]
    rw [ih h.2]
    rfl

/-- Unfolding of textRead on a byte that is neither Ctrl-Z nor CR. -/
theorem textRead_cons (b : Nat) (rest : List Nat) (h26 : b ≠ 26) (h13 : b ≠ 13) :
    textRead (b :: rest) = b :: textRead rest := by
  rw [textRead.eq_def]
  split <;> simp_all

/-- One iteration of the sendString retry loop that stops (OK received or
the attempt bound reached). -/
theorem sendLoop_stop (out : Nat → AttemptOutcome) (fuel tries sends : Nat)
    (bb : List Nat) (sleep : Nat)
    (h : ¬(isOK (stepBB (out tries) bb) = false ∧ tries + 1 ≠ 8)) :
    sendLoopAux out (fuel + 1) tries sends bb sleep =
      ⟨tries + 1, sends + (if stepSent (out tries) then 1 else 0),
        stepBB (out tries) bb, stepSleep (out tries) sleep⟩ := by
  simp only [sendLoopAux]
  rw [if_neg h]

/-- One iteration of the sendString retry loop that continues. -/
theorem sendLoop_cont (out : Nat → AttemptOutcome) (fuel tries sends : Nat)
    (bb : List Nat) (sleep : Nat)
    (h : isOK (stepBB (out tries) bb) = false ∧ tries + 1 ≠ 8) :
    sendLoopAux out (fuel + 1) tries sends bb sleep =
      sendLoopAux out fuel (tries + 1)
        (sends + (if stepSent (out tries) then 1 else 0))
        (stepBB (out tries) bb) (stepSleep (out tries) sleep) := by
  simp only [sendLoopAux]
  rw [if_pos h]

/-- If the first seven attempts of a sendString exchange all receive
non-OK replies and the eighth attempt transmits, the loop runs all eight
attempts, whatever the eighth attempt brings back. -/
theorem sendLoop_nonOK (out : Nat → AttemptOutcome) (rs : Nat → List Nat)
    (hro : ∀ i, i < 7 → out i = AttemptOutcome.reply (rs i))
    (hnk : ∀ i, i < 7 → isOK (ackOf (rs i)) = false)
    (hsent : stepSent (out 7) = true) :
    ∀ fuel tries sends bb sleep, tries + fuel = 8 → 0 < fuel →
    (sendLoopAux out fuel tries sends bb sleep).tries = 8 ∧
    (sendLoopAux out fuel tries sends bb sleep).sends = sends + fuel := by
  intro fuel
  induction fuel with
  | zero => intro tries sends bb sleep _ hpos; omega
  | succ f ih =>
    intro tries sends bb sleep htf _
    by_cases h7 : tries = 7
    · subst h7
      have hf : f = 0 := by omega
      subst hf
      rw [sendLoop_stop out 0 7 sends bb sleep (by simp)]
      rw [hsent]
      exact ⟨rfl, by simp⟩
    · have htlt : tries < 7 := by omega
      have hstep : stepBB (out tries) bb = ackOf (rs tries) := by
        rw [hro tries htlt]; rfl
      have hsent2 : stepSent (out tries) = true := by
        rw [hro tries htlt]; rfl
      rw [sendLoop_cont out f tries sends bb sleep
        ⟨by rw [hstep]; exact hnk tries htlt, by omega⟩]
      have hf : 0 < f := by omega
      obtain ⟨h1, h2⟩ := ih (tries + 1)
        (sends + (if stepSent (out tries) then 1 else 0))
        (stepBB (out tries) bb) (stepSleep (out tries) sleep) (by omega) hf
      refine ⟨h1, ?_⟩
      rw [h2, hsent2]
      simp
      omega

/-- The frame body of a short, percent-free command string: the command
zero-padded to 4092 bytes. -/
theorem sendStringBody_no_pct (s : List Nat) (hlen : s.length < 4092) (hpct : 37 ∉ s) :
    sendStringBody s = some (s ++ List.replicate (4092 - s.length) 0) := by
  simp only [sendStringBody, sprintfLit_no_pct s hpct]
  rw [if_neg (by omega)]
  rw [List.take_append_eq_append_take, List.take_of_length_le (by omega),
    List.take_replicate]
  have hm : min (4092 - s.length) (4096 - s.length) = 4092 - s.length := by omega
  rw [hm]

/-- C10: for every control command string shorter than 4092 bytes that
contains no percent byte, the frame body sendString transmits is the
command followed by zero bytes up to 4092 bytes; and because the command
is passed to sprintf as its format string, a command containing a percent
byte (here NAME=%d) has no defined literal transmission. -/
theorem c10_control_body_literal :
    (∀ s : List Nat, s.length < 4092 → 37 ∉ s →
      sendStringBody s = some (s ++ List.replicate (4092 - s.length) 0)) ∧
    sendStringBody [78, 65, 77, 69, 61, 37, 100] = none :=
  ⟨fun s hlen hpct => sendStringBody_no_pct s hlen hpct, rfl⟩

/-- Witness for C10 at the START command. -/
theorem c10_witness :
    startCmd.length < 4092 ∧ 37 ∉ startCmd ∧
      sendStringBody startCmd
        = some (startCmd ++ List.replicate (4092 - startCmd.length) 0) :=
  ⟨by decide, by decide,
    c10_control_body_literal.1 startCmd (by decide) (by decide)⟩

/-- C5 counterexample: for the two-byte file CR LF, the bytes the digest
path reads differ from the bytes the chunking path reads, so the digest is
not computed over the byte sequence carried in the data frames. -/
theorem c5_digest_cex : textRead [13, 10] ≠ ReadAllBytes [13, 10] := by decide

/-- C5 corrected: the digest is still computed once, before any frame is
transmitted, but over the text-mode read of the file; the digested bytes
equal the chunked bytes only when the text-mode translation leaves the
file unchanged, in particular whenever the file contains no 0x0D and no
0x1A byte. -/
theorem c5_text_mode_digest (f : List Nat) (h13 : 13 ∉ f) (h26 : 26 ∉ f) :
    textRead f = ReadAllBytes f := by
  induction f with
  | nil => rfl
  | cons b rest ih =>
    rw [List.mem_cons, not_or] at h13 h26
    rw [textRead_cons b rest (fun e => h26.1 e.symm) (fun e => h13.1 e.symm)]
    rw [ih h13.2 h26.2]
    rfl

/-- Witness for C5 at the file hello. -/
theorem c5_digest_witness :
    13 ∉ helloFile ∧ 26 ∉ helloFile ∧ textRead helloFile = ReadAllBytes helloFile :=
  ⟨by decide, by decide, c5_text_mode_digest helloFile (by decide) (by decide)⟩

/-- C2: when every one of the 8 attempts of an exchange receives a
non-acknowledgment reply, sendString makes exactly 8 attempts, transmits
the frame exactly 8 times (no more, no fewer), and returns failure. -/
theorem c2_all_nonack_eight (out : Nat → AttemptOutcome) (rs : Nat → List Nat)
    (bb0 : List Nat) (s0 : Nat)
    (hro : ∀ i, i < 8 → out i = AttemptOutcome.reply (rs i))
    (hnk : ∀ i, i < 8 → isOK (ackOf (rs i)) = false) :
    (sendStringRun out bb0 s0).tries = 8 ∧
    (sendStringRun out bb0 s0).sends = 8 ∧
    sendStringRet out bb0 s0 = false := by
  have h := sendLoop_nonOK out rs (fun i hi => hro i (by omega))
    (fun i hi => hnk i (by omega)) (by rw [hro 7 (by omega)]; rfl)
    8 0 0 bb0 s0 (by omega) (by omega)
  refine ⟨h.1, by simpa using h.2, ?_⟩
  simp only [sendStringRet, sendStringRun, h.1]
  rfl

/-- Witness for C2: all eight replies are the letter-N reply. -/
theorem c2_witness :
    (∀ i, i < 8 → outAllNon i = AttemptOutcome.reply nonr) ∧
    isOK (ackOf nonr) = false ∧
    ((sendStringRun outAllNon (List.replicate 16 0) 0).tries = 8 ∧
     (sendStringRun outAllNon (List.replicate 16 0) 0).sends = 8 ∧
     sendStringRet outAllNon (List.replicate 16 0) 0 = false) :=
  ⟨by decide, by decide,
    c2_all_nonack_eight outAllNon (fun _ => nonr) (List.replicate 16 0) 0
      (by decide) (by decide)⟩

/-- C1 counterexample: with non-OK replies on attempts 1..7 and an OK
reply received on the 8th (final) attempt, the reply classifies as success
yet sendString returns failure, contradicting the claim that success on
the boundary attempt is still reported as success. -/
theorem c1_boundary_cex :
    classifyAck (ackOf okr) = Ack.success ∧
    outSeventhenOK 7 = AttemptOutcome.reply okr ∧
    sendStringRet outSeventhenOK (List.replicate 16 0) 0 = false := by
  refine ⟨by decide, by decide, by decide⟩

/-- C1 corrected: if the reply received on the 8th (final) attempt
classifies as success, the retry loop does stop there, but sendString
nevertheless returns failure (its result is tries < 8), so success on the
boundary attempt is reported as ExchangeFailure; success is reported only
for acknowledgments that arrive within the first 7 attempts. -/
theorem c1_boundary_failure (out : Nat → AttemptOutcome) (rs : Nat → List Nat)
    (bb0 : List Nat) (s0 : Nat) (r7 : List Nat)
    (hro : ∀ i, i < 7 → out i = AttemptOutcome.reply (rs i))
    (hnk : ∀ i, i < 7 → isOK (ackOf (rs i)) = false)
    (h7 : out 7 = AttemptOutcome.reply r7)
    (_hok : isOK (ackOf r7) = true) :
    (sendStringRun out bb0 s0).tries = 8 ∧ sendStringRet out bb0 s0 = false := by
  have h := sendLoop_nonOK out rs hro hnk (by rw [h7]; rfl)
    8 0 0 bb0 s0 (by omega) (by omega)
  refine ⟨h.1, ?_⟩
  simp only [sendStringRet, sendStringRun, h.1]
  rfl

/-- Witness for C1: seven letter-N replies, then an OK reply. -/
theorem c1_boundary_witness :
    (∀ i, i < 7 → outSeventhenOK i = AttemptOutcome.reply nonr) ∧
    isOK (ackOf nonr) = false ∧
    outSeventhenOK 7 = AttemptOutcome.reply okr ∧
    isOK (ackOf okr) = true ∧
    ((sendStringRun outSeventhenOK (List.replicate 16 0) 0).tries = 8 ∧
     sendStringRet outSeventhenOK (List.replicate 16 0) 0 = false) :=
  ⟨by decide, by decide, by decide, by decide,
    c1_boundary_failure outSeventhenOK (fun _ => nonr) (List.replicate 16 0) 0
      okr (by decide) (by decide) (by decide) (by decide)⟩

/-- C8: whenever a reply classifies as SuccessWithRate, sendString sets
the inter-frame delay to round(4096 / bps * 1000) milliseconds before
returning success, where bps is bytes 4..7 of the reply read big-endian
(the rounding is the exact one; see sleepUpdate for why the C float
evaluation agrees with it for every bps of at least 1); in particular for
the reply OKSS followed by the big-endian value 1 the delay becomes
round(4096000 / 1) = 4096000 ms. -/
theorem c8_rate_formula (out : Nat → AttemptOutcome) (bb0 : List Nat) (s0 : Nat)
    (b4 b5 b6 b7 b8 b9 b10 b11 b12 b13 b14 b15 : Nat)
    (hr : out 0 = AttemptOutcome.reply
      [79, 75, 83, 83, b4, b5, b6, b7, b8, b9, b10, b11, b12, b13, b14, b15])
    (_hbps : 1 ≤ b4 * 16777216 + b5 * 65536 + b6 * 256 + b7) :
    classifyAck [79, 75, 83, 83, b4, b5, b6, b7, b8, b9, b10, b11, b12, b13, b14, b15]
      = Ack.successWithRate (b4 * 16777216 + b5 * 65536 + b6 * 256 + b7) ∧
    (sendStringRun out bb0 s0).tries = 1 ∧
    (sendStringRun out bb0 s0).sleep
      = (8192000 + (b4 * 16777216 + b5 * 65536 + b6 * 256 + b7))
        / (2 * (b4 * 16777216 + b5 * 65536 + b6 * 256 + b7)) ∧
    sleepUpdate 1 = 4096000 := by
  have hbform : bpsOf [79, 75, 83, 83, b4, b5, b6, b7, b8, b9, b10, b11, b12, b13, b14, b15]
      = b4 * 16777216 + b5 * 65536 + b6 * 256 + b7 := by
    simp only [bpsOf]
    simp only [List.drop, List.take, List.foldl]
    ring
  have hstep : stepSleep (AttemptOutcome.reply
      [79, 75, 83, 83, b4, b5, b6, b7, b8, b9, b10, b11, b12, b13, b14, b15]) s0
      = sleepUpdate (bpsOf (ackOf
        [79, 75, 83, 83, b4, b5, b6, b7, b8, b9, b10, b11, b12, b13, b14, b15])) := by
    have h1 : isOKSS (ackOf [79, 75, 83, 83, b4, b5, b6, b7, b8, b9, b10, b11,
      b12, b13, b14, b15]) = true := rfl
    simp [stepSleep, h1]
  have hb2 : bpsOf (ackOf [79, 75, 83, 83, b4, b5, b6, b7, b8, b9, b10, b11, b12, b13, b14, b15])
      = b4 * 16777216 + b5 * 65536 + b6 * 256 + b7 := by
    show (((0 * 256 + b4) * 256 + b5) * 256 + b6) * 256 + b7 = _
    ring
  refine ⟨?_, ?_, ?_, by decide⟩
  · simp only [classifyAck]
    rw [if_pos (show List.take 4 [79, 75, 83, 83, b4, b5, b6, b7, b8, b9, b10, b11,
      b12, b13, b14, b15] = [79, 75, 83, 83] from rfl)]
    rw [hbform]
  · rw [sendStringRun, sendLoop_stop out 7 0 0 bb0 s0 (by rw [hr]; simp [stepBB, ackOf, isOK])]
  · rw [sendStringRun, sendLoop_stop out 7 0 0 bb0 s0 (by rw [hr]; simp [stepBB, ackOf, isOK])]
    show stepSleep (out 0) s0 = _
    rw [hr, hstep, hb2, sleepUpdate]

/-- Witness for C8 at the reply OKSS with big-endian bandwidth 1. -/
theorem c8_rate_witness :
    ((fun _ : Nat => AttemptOutcome.reply (okssReply 1)) 0
      = AttemptOutcome.reply [79, 75, 83, 83, 0, 0, 0, 1, 0, 0, 0, 0, 0, 0, 0, 0]) ∧
    (1 ≤ 0 * 16777216 + 0 * 65536 + 0 * 256 + 1) ∧
    (classifyAck [79, 75, 83, 83, 0, 0, 0, 1, 0, 0, 0, 0, 0, 0, 0, 0]
        = Ack.successWithRate (0 * 16777216 + 0 * 65536 + 0 * 256 + 1) ∧
      (sendStringRun (fun _ => AttemptOutcome.reply (okssReply 1))
        (List.replicate 16 0) 0).tries = 1 ∧
      (sendStringRun (fun _ => AttemptOutcome.reply (okssReply 1))
        (List.replicate 16 0) 0).sleep
        = (8192000 + (0 * 16777216 + 0 * 65536 + 0 * 256 + 1))
          / (2 * (0 * 16777216 + 0 * 65536 + 0 * 256 + 1)) ∧
      sleepUpdate 1 = 4096000) :=
  ⟨by decide, by decide,
    c8_rate_formula (fun _ => AttemptOutcome.reply (okssReply 1))
      (List.replicate 16 0) 0 0 0 0 1 0 0 0 0 0 0 0 0 (by decide) (by decide)⟩

/-- One iteration of the data-loop retry that stops (OK in the buffer
after the attempt, or the attempt bound reached). -/
theorem dataLoop_stop (out : Nat → AttemptOutcome) (fuel tries sends : Nat)
    (bb : List Nat) (sleep : Nat)
    (h : ¬(isOK (stepBB (out tries) bb) = false ∧ tries + 1 ≠ 8)) :
    dataLoopAux out (fuel + 1) tries sends bb sleep =
      ⟨tries + 1, sends + (if stepSent (out tries) then 1 else 0),
        stepBB (out tries) bb,
        if isOKSS bb then sleepUpdate (bpsOf bb) else sleep⟩ := by
  simp only [dataLoopAux]
  rw [if_neg h]

/-- A data-frame exchange whose first attempt receives an OK-classified
reply, entered with a non-OKSS buffer: one attempt, one transmission, and
the sleep is returned unchanged (even if the reply itself carries a rate
hint). -/
theorem dataLoop_firstOK (out : Nat → AttemptOutcome) (bb : List Nat)
    (sl : Nat) (r : List Nat)
    (h0 : out 0 = AttemptOutcome.reply r)
    (hok : isOK (ackOf r) = true)
    (hss : isOKSS bb = false) :
    dataLoopAux out 8 0 0 bb sl = ⟨1, 1, ackOf r, sl⟩ := by
  rw [show (8 : Nat) = 7 + 1 from rfl,
    dataLoop_stop out 7 0 0 bb sl (by rw [h0]; simp [stepBB, hok])]
  rw [h0]
  simp [stepBB, stepSent, hss]

/-- A data-frame exchange whose first attempt receives an OK-classified
reply, entered with an OKSS buffer left by the previous frame: the rate
hint of the previous reply is applied at the top, before the attempt. -/
theorem dataLoop_firstOK_rate (out : Nat → AttemptOutcome) (bb : List Nat)
    (sl : Nat) (r : List Nat)
    (h0 : out 0 = AttemptOutcome.reply r)
    (hok : isOK (ackOf r) = true)
    (hss : isOKSS bb = true) :
    dataLoopAux out 8 0 0 bb sl = ⟨1, 1, ackOf r, sleepUpdate (bpsOf bb)⟩ := by
  rw [show (8 : Nat) = 7 + 1 from rfl,
    dataLoop_stop out 7 0 0 bb sl (by rw [h0]; simp [stepBB, hok])]
  rw [h0]
  simp [stepBB, stepSent, hss]

/-- A data-frame exchange entered with an OK-prefixed stale buffer whose
first attempt gets no reply: the loop exits as a success after a single
attempt although nothing was received for this frame. -/
theorem dataLoop_staleOK (out : Nat → AttemptOutcome) (bb : List Nat) (sl : Nat)
    (h0 : out 0 = AttemptOutcome.noReply)
    (hok : isOK bb = true)
    (hss : isOKSS bb = false) :
    dataLoopAux out 8 0 0 bb sl = ⟨1, 1, bb, sl⟩ := by
  rw [show (8 : Nat) = 7 + 1 from rfl,
    dataLoop_stop out 7 0 0 bb sl (by rw [h0]; simp [stepBB, hok])]
  rw [h0]
  simp [stepBB, stepSent, hss]

/-- The data-transmission loop at an offset at or past the file length
stops with an empty record list. -/
theorem streamRun_done (file : List Nat) (out : Nat → Nat → AttemptOutcome)
    (fuel offset : Nat) (buf bb : List Nat) (sleep k : Nat)
    (h : ¬(offset < file.length)) :
    streamRun file out (fuel + 1) offset buf bb sleep k = some ([], true, sleep) := by
  simp only [streamRun]
  rw [if_neg h]

/-- One successful iteration of the data-transmission loop, given the
exchange result and the rest of the run. -/
theorem streamRun_cons (file : List Nat) (out : Nat → Nat → AttemptOutcome)
    (fuel offset : Nat) (buf bb : List Nat) (sleep k tr sn : Nat)
    (bb2 : List Nat) (sl2 : Nat) (recs : List FrameRecord) (ok : Bool) (sl : Nat)
    (h : offset < file.length)
    (hdl : dataLoopAux (out k) 8 0 0 bb sleep = ⟨tr, sn, bb2, sl2⟩)
    (htr : ¬(tr = 8))
    (hnext : streamRun file out fuel (offset + 4084) (List.replicate 4096 0) bb2 sl2 (k + 1)
      = some (recs, ok, sl)) :
    streamRun file out (fuel + 1) offset buf bb sleep k =
      some (⟨mkFrame ((dataTag ++ intToBytes offset
          ++ (file.drop offset).take (min 4084 (file.length - offset))
          ++ buf.drop (8 + min 4084 (file.length - offset))).take 4092),
        tr, sn, some sl2⟩ :: recs, ok, sl) := by
  simp only [streamRun]
  rw [if_pos h, hdl]
  dsimp only
  rw [if_neg htr, hnext]

/-- Taking the frame body truncates a buffer whose written prefix fills it
exactly. -/
theorem body_full (off : Nat) (chunk rest : List Nat) (h : chunk.length = 4084) :
    (dataTag ++ intToBytes off ++ chunk ++ rest).take 4092
      = dataTag ++ intToBytes off ++ chunk := by
  have hl : (dataTag ++ intToBytes off ++ chunk).length = 4092 := by
    simp [dataTag, intToBytes, h]
  exact List.take_left' hl

/-- Taking the frame body of a short chunk written over a buffer filled
with the byte a pads the data area with that byte (a = 0 after ZeroMemory;
an arbitrary a models uninitialized contents). -/
theorem body_shortChunk (a off m cl : Nat) (chunk : List Nat) (hcl : chunk.length = cl)
    (h1 : cl ≤ 4084) (h2 : 4084 ≤ cl + m) :
    (dataTag ++ intToBytes off ++ chunk ++ List.replicate m a).take 4092
      = dataTag ++ intToBytes off ++ chunk ++ List.replicate (4084 - cl) a := by
  have hl : (dataTag ++ intToBytes off ++ chunk).length = 8 + cl := by
    simp [dataTag, intToBytes, hcl]
    omega
  rw [List.take_append_eq_append_take, List.take_of_length_le (by omega),
    List.take_replicate, hl]
  congr 2
  omega

/-- C6: for every file of length 10000 bytes (and whatever the
uninitialized buffer2 holds), with every exchange acknowledged by a plain
OK on its first attempt, the streaming phase transmits exactly 3 data
frames, once each, with big-endian offset fields 0, 4084 and 8168,
carrying the 4084-byte chunks at offsets 0 and 4084 and the last 1832
file bytes with the remainder of the data area zero-padded. -/
theorem c6_stream_three_frames (file initBuf : List Nat)
    (hf : file.length = 10000) :
    streamRun file outAllOK 4 0 initBuf (List.replicate 16 0) 0 0
      = some ([⟨mkFrame (dataTag ++ intToBytes 0 ++ file.take 4084), 1, 1, some 0⟩,
          ⟨mkFrame (dataTag ++ intToBytes 4084 ++ (file.drop 4084).take 4084), 1, 1, some 0⟩,
          ⟨mkFrame (dataTag ++ intToBytes 8168 ++ (file.drop 8168).take 1832
            ++ List.replicate 2252 0), 1, 1, some 0⟩], true, 0) := by
  have hao : ackOf okr = okr := rfl
  have hd0 : ∀ (k s : Nat) (bb : List Nat), isOKSS bb = false →
      dataLoopAux (outAllOK k) 8 0 0 bb s = ⟨1, 1, okr, s⟩ := by
    intro k s bb hss
    have h := dataLoop_firstOK (outAllOK k) bb s okr rfl (by decide) hss
    rwa [hao] at h
  have hdone : streamRun file outAllOK 1 (8168 + 4084) (List.replicate 4096 0) okr 0 3
      = some ([], true, 0) := streamRun_done _ _ _ _ _ _ _ _ (by omega)
  have h3 : streamRun file outAllOK 2 8168 (List.replicate 4096 0) okr 0 2
      = some ([⟨mkFrame (dataTag ++ intToBytes 8168 ++ (file.drop 8168).take 1832
          ++ List.replicate 2252 0), 1, 1, some 0⟩], true, 0) := by
    have h := streamRun_cons file outAllOK 1 8168 (List.replicate 4096 0) okr 0 2
      1 1 okr 0 [] true 0 (by omega) (hd0 2 0 okr (by decide)) (by omega) hdone
    have hmin : min 4084 (file.length - 8168) = 1832 := by omega
    rw [hmin] at h
    rw [show (8 + 1832 : Nat) = 1840 from rfl, List.drop_replicate] at h
    rw [show (4096 - 1840 : Nat) = 2256 from rfl] at h
    rw [body_shortChunk 0 8168 2256 1832 ((file.drop 8168).take 1832)
      (by simp; omega) (by omega) (by omega)] at h
    rw [show (4084 - 1832 : Nat) = 2252 from rfl] at h
    exact h
  have h2 : streamRun file outAllOK 3 4084 (List.replicate 4096 0) okr 0 1
      = some ([⟨mkFrame (dataTag ++ intToBytes 4084 ++ (file.drop 4084).take 4084), 1, 1, some 0⟩,
          ⟨mkFrame (dataTag ++ intToBytes 8168 ++ (file.drop 8168).take 1832
            ++ List.replicate 2252 0), 1, 1, some 0⟩], true, 0) := by
    have h := streamRun_cons file outAllOK 2 4084 (List.replicate 4096 0) okr 0 1
      1 1 okr 0 _ true 0 (by omega) (hd0 1 0 okr (by decide)) (by omega)
      (by rw [show (4084 + 4084 : Nat) = 8168 from rfl]; exact h3)
    have hmin : min 4084 (file.length - 4084) = 4084 := by omega
    rw [hmin] at h
    rw [body_full 4084 ((file.drop 4084).take 4084) _ (by simp; omega)] at h
    exact h
  have h1 := streamRun_cons file outAllOK 3 0 initBuf (List.replicate 16 0) 0 0
    1 1 okr 0 _ true 0 (by omega) (hd0 0 0 (List.replicate 16 0) (by decide)) (by omega)
    (by rw [show (0 + 4084 : Nat) = 4084 from rfl]; exact h2)
  have hmin : min 4084 (file.length - 0) = 4084 := by omega
  rw [hmin] at h1
  rw [List.drop_zero] at h1
  rw [body_full 0 (file.take 4084) _ (by simp; omega)] at h1
  exact h1

/-- Witness for C6 at the 10000-byte file of sevens, with arbitrary
uninitialized buffer contents (nines). -/
theorem c6_stream_witness :
    (List.replicate 10000 (7 : Nat)).length = 10000 ∧
    streamRun (List.replicate 10000 7) outAllOK 4 0 (List.replicate 4096 9)
        (List.replicate 16 0) 0 0
      = some ([⟨mkFrame (dataTag ++ intToBytes 0 ++ (List.replicate 10000 7).take 4084),
            1, 1, some 0⟩,
          ⟨mkFrame (dataTag ++ intToBytes 4084
            ++ ((List.replicate 10000 7).drop 4084).take 4084), 1, 1, some 0⟩,
          ⟨mkFrame (dataTag ++ intToBytes 8168
            ++ ((List.replicate 10000 7).drop 8168).take 1832
            ++ List.replicate 2252 0), 1, 1, some 0⟩], true, 0) :=
  ⟨List.length_replicate 10000 7,
    c6_stream_three_frames (List.replicate 10000 7) (List.replicate 4096 9)
      (List.length_replicate 10000 7)⟩

/-- Shape of the first chunk of the two-chunk file. -/
theorem fileTwoChunks_take : fileTwoChunks.take 4084 = List.replicate 4084 3 := by
  rw [show fileTwoChunks = List.replicate 4085 3 from rfl, List.take_replicate]
  norm_num

/-- Shape of the second chunk of the two-chunk file. -/
theorem fileTwoChunks_drop : (fileTwoChunks.drop 4084).take 1 = [3] := by
  rw [show fileTwoChunks = List.replicate 4085 3 from rfl, List.drop_replicate]
  norm_num

/-- Length of the two-chunk file. -/
theorem fileTwoChunks_len : fileTwoChunks.length = 4085 :=
  List.length_replicate 4085 3

/-- C3 counterexample: in the data loop, after the first frame is
acknowledged with a plain OK, every attempt of the second frame's exchange
receives no reply at all, yet the exchange exits as a success after one
attempt (the loop condition re-reads the stale OK left in backbuffer by
the previous frame), the offset advances and the run completes: an attempt
on which no reply arrives is classified as success, refuting that
classification is a function of the current reply only and that no-reply
is always NonAck. -/
theorem c3_stale_ack_cex :
    outStaleOK 1 0 = AttemptOutcome.noReply ∧
    streamRun fileTwoChunks outStaleOK 3 0 (List.replicate 4096 9)
        (List.replicate 16 0) 0 0
      = some ([⟨mkFrame (dataTag ++ intToBytes 0 ++ List.replicate 4084 3), 1, 1, some 0⟩,
          ⟨mkFrame (dataTag ++ intToBytes 4084 ++ [3] ++ List.replicate 4083 0),
            1, 1, some 0⟩], true, 0) := by
  refine ⟨rfl, ?_⟩
  have hf := fileTwoChunks_len
  have hdone : streamRun fileTwoChunks outStaleOK 1 (4084 + 4084)
      (List.replicate 4096 0) okr 0 2 = some ([], true, 0) :=
    streamRun_done _ _ _ _ _ _ _ _ (by omega)
  have h2 : streamRun fileTwoChunks outStaleOK 2 4084 (List.replicate 4096 0) okr 0 1
      = some ([⟨mkFrame (dataTag ++ intToBytes 4084 ++ [3] ++ List.replicate 4083 0),
          1, 1, some 0⟩], true, 0) := by
    have h := streamRun_cons fileTwoChunks outStaleOK 1 4084 (List.replicate 4096 0)
      okr 0 1 1 1 okr 0 [] true 0 (by omega)
      (dataLoop_staleOK (outStaleOK 1) okr 0 rfl (by decide) (by decide))
      (by omega) hdone
    have hmin : min 4084 (fileTwoChunks.length - 4084) = 1 := by omega
    rw [hmin, fileTwoChunks_drop] at h
    rw [show (8 + 1 : Nat) = 9 from rfl, List.drop_replicate] at h
    rw [show (4096 - 9 : Nat) = 4087 from rfl] at h
    rw [body_shortChunk 0 4084 4087 1 [3] rfl (by omega) (by omega)] at h
    rw [show (4084 - 1 : Nat) = 4083 from rfl] at h
    exact h
  have h1 := streamRun_cons fileTwoChunks outStaleOK 2 0 (List.replicate 4096 9)
    (List.replicate 16 0) 0 0 1 1 okr 0 _ true 0 (by omega)
    (by
      have h := dataLoop_firstOK (outStaleOK 0) (List.replicate 16 0) 0 okr rfl
        (by decide) (by decide)
      rwa [show ackOf okr = okr from rfl] at h)
    (by omega)
    (by rw [show (0 + 4084 : Nat) = 4084 from rfl]; exact h2)
  have hmin : min 4084 (fileTwoChunks.length - 0) = 4084 := by omega
  rw [hmin, List.drop_zero, fileTwoChunks_take] at h1
  rw [body_full 0 (List.replicate 4084 3) _ (List.length_replicate 4084 3)] at h1
  exact h1

/-- C3 corrected: the classification of a received reply is a function of
the reply bytes alone and matches the claimed shapes (the loop's success
test accepts a reply exactly when it does not classify NonAck), but when
an attempt receives no reply the acknowledgment buffer keeps its previous
contents and the loop re-classifies those, so in the data loop an exchange
whose attempt gets no reply exits as a success whenever the previously
received reply began OK. -/
theorem c3_classify_fn (r' bb bb2 : List Nat) (s : Nat)
    (b0 b1 b2 b3 b4 b5 b6 b7 b8 b9 b10 b11 b12 b13 b14 b15 : Nat)
    (out0 : Nat → AttemptOutcome)
    (hnr : out0 0 = AttemptOutcome.noReply)
    (hok : isOK bb = true) (hss : isOKSS bb = false) :
    stepBB (AttemptOutcome.reply r') bb = stepBB (AttemptOutcome.reply r') bb2 ∧
    (isOK (ackOf [b0, b1, b2, b3, b4, b5, b6, b7, b8, b9, b10, b11, b12, b13, b14, b15]) = true
      ↔ classifyAck [b0, b1, b2, b3, b4, b5, b6, b7, b8, b9, b10, b11, b12, b13, b14, b15]
        ≠ Ack.nonAck) ∧
    stepBB AttemptOutcome.noReply bb = bb ∧
    dataLoopAux out0 8 0 0 bb s = ⟨1, 1, bb, s⟩ := by
  refine ⟨rfl, ?_, rfl, dataLoop_staleOK out0 bb s hnr hok hss⟩
  rw [show isOK (ackOf [b0, b1, b2, b3, b4, b5, b6, b7, b8, b9, b10, b11, b12, b13, b14, b15])
    = decide ([b0, b1] = [79, 75]) from rfl]
  rw [decide_eq_true_iff]
  rw [classifyAck]
  rw [show List.take 4 [b0, b1, b2, b3, b4, b5, b6, b7, b8, b9, b10, b11, b12, b13, b14, b15]
    = [b0, b1, b2, b3] from rfl]
  rw [show List.take 2 [b0, b1, b2, b3, b4, b5, b6, b7, b8, b9, b10, b11, b12, b13, b14, b15]
    = [b0, b1] from rfl]
  split_ifs with hA hB
  · simp only [List.cons.injEq, and_true] at hA
    simp [hA.1, hA.2.1]
  · simp [hB]
  · simp [hB]

/-- Witness for C3: the OK reply, two buffers, and a no-reply schedule. -/
theorem c3_classify_witness :
    (fun _ : Nat => AttemptOutcome.noReply) 0 = AttemptOutcome.noReply ∧
    isOK okr = true ∧ isOKSS okr = false ∧
    (stepBB (AttemptOutcome.reply okr) okr = stepBB (AttemptOutcome.reply okr) nonr ∧
      (isOK (ackOf [79, 75, 0, 0, 0, 0, 0, 0, 0, 0, 0, 0, 0, 0, 0, 0]) = true
        ↔ classifyAck [79, 75, 0, 0, 0, 0, 0, 0, 0, 0, 0, 0, 0, 0, 0, 0] ≠ Ack.nonAck) ∧
      stepBB AttemptOutcome.noReply okr = okr ∧
      dataLoopAux (fun _ => AttemptOutcome.noReply) 8 0 0 okr 5 = ⟨1, 1, okr, 5⟩) :=
  ⟨rfl, by decide, by decide,
    c3_classify_fn okr okr nonr 5 79 75 0 0 0 0 0 0 0 0 0 0 0 0 0 0
      (fun _ => AttemptOutcome.noReply) rfl (by decide) (by decide)⟩

/-- C9 counterexample: the first data frame is acknowledged with an OKSS
reply carrying bandwidth 1, whose delay is 4096000 ms, yet the sleep
performed immediately after that acknowledged frame is the old delay 0;
the new delay first takes effect at the next frame (whose recorded sleep
is 4096000), refuting that the session delay is updated before the
exchange returns. -/
theorem c9_rate_lag_cex :
    streamRun fileTwoChunks outRateThenOK 3 0 (List.replicate 4096 9)
        (List.replicate 16 0) 0 0
      = some ([⟨mkFrame (dataTag ++ intToBytes 0 ++ List.replicate 4084 3), 1, 1, some 0⟩,
          ⟨mkFrame (dataTag ++ intToBytes 4084 ++ [3] ++ List.replicate 4083 0),
            1, 1, some 4096000⟩], true, 4096000) ∧
    isOKSS (ackOf (okssReply 1)) = true ∧
    sleepUpdate (bpsOf (ackOf (okssReply 1))) = 4096000 ∧
    (0 : Nat) ≠ 4096000 := by
  refine ⟨?_, by decide, by decide, by decide⟩
  have hf := fileTwoChunks_len
  have hdone : streamRun fileTwoChunks outRateThenOK 1 (4084 + 4084)
      (List.replicate 4096 0) okr 4096000 2 = some ([], true, 4096000) :=
    streamRun_done _ _ _ _ _ _ _ _ (by omega)
  have h2 : streamRun fileTwoChunks outRateThenOK 2 4084 (List.replicate 4096 0)
      (okssReply 1) 0 1
      = some ([⟨mkFrame (dataTag ++ intToBytes 4084 ++ [3] ++ List.replicate 4083 0),
          1, 1, some 4096000⟩], true, 4096000) := by
    have h := streamRun_cons fileTwoChunks outRateThenOK 1 4084 (List.replicate 4096 0)
      (okssReply 1) 0 1 1 1 okr 4096000 [] true 4096000 (by omega)
      (by
        have h := dataLoop_firstOK_rate (outRateThenOK 1) (okssReply 1) 0 okr rfl
          (by decide) (by decide)
        rwa [show ackOf okr = okr from rfl,
          show sleepUpdate (bpsOf (okssReply 1)) = 4096000 from by decide] at h)
      (by omega) hdone
    have hmin : min 4084 (fileTwoChunks.length - 4084) = 1 := by omega
    rw [hmin, fileTwoChunks_drop] at h
    rw [show (8 + 1 : Nat) = 9 from rfl, List.drop_replicate] at h
    rw [show (4096 - 9 : Nat) = 4087 from rfl] at h
    rw [body_shortChunk 0 4084 4087 1 [3] rfl (by omega) (by omega)] at h
    rw [show (4084 - 1 : Nat) = 4083 from rfl] at h
    exact h
  have h1 := streamRun_cons fileTwoChunks outRateThenOK 2 0 (List.replicate 4096 9)
    (List.replicate 16 0) 0 0 1 1 (okssReply 1) 0 _ true 4096000 (by omega)
    (by
      have h := dataLoop_firstOK (outRateThenOK 0) (List.replicate 16 0) 0
        (okssReply 1) rfl (by decide) (by decide)
      rwa [show ackOf (okssReply 1) = okssReply 1 from rfl] at h)
    (by omega)
    (by rw [show (0 + 4084 : Nat) = 4084 from rfl]; exact h2)
  have hmin : min 4084 (fileTwoChunks.length - 0) = 4084 := by omega
  rw [hmin, List.drop_zero, fileTwoChunks_take] at h1
  rw [body_full 0 (List.replicate 4084 3) _ (List.length_replicate 4084 3)] at h1
  exact h1

/-- C9 corrected: a rate hint received in a data-frame reply is not
applied before the exchange returns: an exchange succeeding on its first
attempt returns the incoming sleep unchanged even when the reply carries a
rate hint (first conjunct), so the sleep performed immediately after the
acknowledged frame uses the previous delay; the hint is applied at the top
of the next frame's first attempt, which makes the next exchange
independent of the incoming delay value (second conjunct). -/
theorem c9_rate_applied_next (out out2 : Nat → AttemptOutcome) (bb : List Nat)
    (s s2 s3 : Nat) (r : List Nat)
    (h0 : out 0 = AttemptOutcome.reply r)
    (hok : isOK (ackOf r) = true)
    (hss : isOKSS bb = false)
    (hss2 : isOKSS (ackOf r) = true) :
    dataLoopAux out 8 0 0 bb s = ⟨1, 1, ackOf r, s⟩ ∧
    dataLoopAux out2 8 0 0 (ackOf r) s2 = dataLoopAux out2 8 0 0 (ackOf r) s3 := by
  refine ⟨dataLoop_firstOK out bb s r h0 hok hss, ?_⟩
  rw [show (8 : Nat) = 7 + 1 from rfl]
  simp only [dataLoopAux, hss2, if_true]

/-- Witness for C9: OKSS reply with bandwidth 1 against a zeroed buffer,
then a plain-OK exchange entered with two different delays. -/
theorem c9_rate_witness :
    outRateThenOK 0 0 = AttemptOutcome.reply (okssReply 1) ∧
    isOK (ackOf (okssReply 1)) = true ∧
    isOKSS (List.replicate 16 0) = false ∧
    isOKSS (ackOf (okssReply 1)) = true ∧
    (dataLoopAux (outRateThenOK 0) 8 0 0 (List.replicate 16 0) 0
        = ⟨1, 1, ackOf (okssReply 1), 0⟩ ∧
      dataLoopAux (outRateThenOK 1) 8 0 0 (ackOf (okssReply 1)) 0
        = dataLoopAux (outRateThenOK 1) 8 0 0 (ackOf (okssReply 1)) 7) :=
  ⟨rfl, by decide, by decide, by decide,
    c9_rate_applied_next (outRateThenOK 0) (outRateThenOK 1) (List.replicate 16 0)
      0 0 7 (okssReply 1) rfl (by decide) (by decide) (by decide)⟩

/-- Appending buffers composes the CRC fold. -/
theorem crcAccCode_append (c : Nat) (l1 l2 : List Nat) :
    crcAccCode c (l1 ++ l2) = crcAccCode (crcAccCode c l1) l2 :=
  List.foldl_append _ _ _ _

/-- One byte of the CRC fold. -/
theorem crcAccCode_cons (c b : Nat) (l : List Nat) :
    crcAccCode c (b :: l) = crcAccCode (crcBits 8 (c ^^^ charToUInt32 b)) l := rfl

/-- One byte of the standard CRC fold. -/
theorem crcAccStd_cons (c b : Nat) (l : List Nat) :
    crcAccStd c (b :: l) = crcAccStd (crcBits 8 (c ^^^ b)) l := rfl

/-- XOR with the polynomial sets the top bit of a 31-bit value. -/
theorem xor_poly_high (x : Nat) (hx : x < 2 ^ 31) : 2 ^ 31 ≤ x ^^^ POLY := by
  have ht : (x ^^^ POLY).testBit 31 = true := by
    rw [Nat.testBit_xor, Nat.testBit_lt_two_pow hx]
    decide
  rw [Nat.testBit_to_div_mod] at ht
  have h2 := of_decide_eq_true ht
  omega

/-- The CRC bit step keeps values below 2 ^ 32. -/
theorem crcBit_lt (a : Nat) (ha : a < 2 ^ 32) : crcBit a < 2 ^ 32 := by
  rw [crcBit]
  split_ifs
  · exact Nat.xor_lt_two_pow (by omega) (by norm_num [POLY])
  · omega

/-- The CRC bit step is injective on 32-bit values: the top bit of the
output recovers the dropped parity bit. -/
theorem crcBit_inj (a b : Nat) (ha : a < 2 ^ 32) (hb : b < 2 ^ 32)
    (h : crcBit a = crcBit b) : a = b := by
  rw [crcBit, crcBit] at h
  by_cases pa : a % 2 = 1 <;> by_cases pb : b % 2 = 1
  · rw [if_pos pa, if_pos pb] at h
    have h2 : a / 2 = b / 2 := by
      have h3 := congrArg (fun x => x ^^^ POLY) h
      simpa [Nat.xor_cancel_right] using h3
    omega
  · rw [if_pos pa, if_neg pb] at h
    have h1 := xor_poly_high (a / 2) (by omega)
    rw [h] at h1
    omega
  · rw [if_neg pa, if_pos pb] at h
    have h1 := xor_poly_high (b / 2) (by omega)
    rw [← h] at h1
    omega
  · rw [if_neg pa, if_neg pb] at h
    omega

/-- Iterated CRC bit steps keep values below 2 ^ 32. -/
theorem crcBits_lt (k : Nat) : ∀ a, a < 2 ^ 32 → crcBits k a < 2 ^ 32 := by
  induction k with
  | zero => exact fun a ha => ha
  | succ k ih => exact fun a ha => ih (crcBit a) (crcBit_lt a ha)

/-- Iterated CRC bit steps are injective on 32-bit values. -/
theorem crcBits_inj (k : Nat) : ∀ a b, a < 2 ^ 32 → b < 2 ^ 32 →
    crcBits k a = crcBits k b → a = b := by
  induction k with
  | zero => exact fun a b _ _ h => h
  | succ k ih =>
    exact fun a b ha hb h =>
      crcBit_inj a b ha hb (ih (crcBit a) (crcBit b) (crcBit_lt a ha) (crcBit_lt b hb) h)

/-- The CRC fold over zero bytes keeps values below 2 ^ 32. -/
theorem crcAccCode_zeros_lt (m : Nat) : ∀ c, c < 2 ^ 32 →
    crcAccCode c (List.replicate m 0) < 2 ^ 32 := by
  induction m with
  | zero => exact fun c hc => hc
  | succ m ih =>
    intro c hc
    rw [List.replicate_succ, crcAccCode_cons]
    simp only [show charToUInt32 0 = 0 from rfl, Nat.xor_zero]
    exact ih _ (crcBits_lt 8 c hc)

/-- The CRC fold over zero bytes is injective in its starting state. -/
theorem crcAccCode_zeros_inj (m : Nat) : ∀ a b, a < 2 ^ 32 → b < 2 ^ 32 →
    crcAccCode a (List.replicate m 0) = crcAccCode b (List.replicate m 0) → a = b := by
  induction m with
  | zero => exact fun a b _ _ h => h
  | succ m ih =>
    intro a b ha hb h
    rw [List.replicate_succ, crcAccCode_cons, crcAccCode_cons] at h
    simp only [show charToUInt32 0 = 0 from rfl, Nat.xor_zero] at h
    exact crcBits_inj 8 a b ha hb
      (ih _ _ (crcBits_lt 8 a ha) (crcBits_lt 8 b hb) h)

/-- On zero bytes the source CRC fold and the standard fold agree. -/
theorem crcAccStd_zeros (m : Nat) : ∀ c,
    crcAccStd c (List.replicate m 0) = crcAccCode c (List.replicate m 0) := by
  induction m with
  | zero => exact fun c => rfl
  | succ m ih =>
    intro c
    rw [List.replicate_succ, crcAccStd_cons, crcAccCode_cons]
    rw [show charToUInt32 0 = 0 from rfl]
    exact ih _

/-- Big-endian 4-byte encoding is injective on 32-bit values. -/
theorem intToBytes_inj (u v : Nat) (hu : u < 2 ^ 32) (hv : v < 2 ^ 32)
    (h : intToBytes u = intToBytes v) : u = v := by
  simp only [intToBytes, List.cons.injEq, and_true] at h
  omega

/-- Length of the one-chunk file with a high byte. -/
theorem fileHighByte_len : fileHighByte.length = 4084 := by
  rw [show fileHighByte = 128 :: List.replicate 4083 0 from rfl]
  rw [List.length_cons, List.length_replicate]

/-- The source CRC of the high-byte frame body, reduced to a fold over the
zero tail from the state after the sign-extended XOR of byte 0x80. -/
theorem crcCode_highByte :
    crc32cCode (dataTag ++ intToBytes 0 ++ fileHighByte)
      = 0xFFFFFFFF ^^^ crcAccCode 0x381a168f (List.replicate 4083 0) := by
  rw [crc32cCode, crcAccCode_append]
  rw [show crcAccCode 0xFFFFFFFF (dataTag ++ intToBytes 0) = 0x29c37638 from by decide]
  rw [show fileHighByte = 128 :: List.replicate 4083 0 from rfl, crcAccCode_cons]
  rw [show crcBits 8 (0x29c37638 ^^^ charToUInt32 128) = 0x381a168f from by decide]

/-- The standard CRC of the high-byte frame body, reduced to the same fold
from the state after the plain XOR of byte 0x80. -/
theorem crcStd_highByte :
    crc32cStd (dataTag ++ intToBytes 0 ++ fileHighByte)
      = 0xFFFFFFFF ^^^ crcAccCode 0x38e5e970 (List.replicate 4083 0) := by
  rw [crc32cStd, show crcAccStd 0xFFFFFFFF (dataTag ++ intToBytes 0 ++ fileHighByte)
    = crcAccStd (crcAccStd 0xFFFFFFFF (dataTag ++ intToBytes 0)) fileHighByte
    from List.foldl_append _ _ _ _]
  rw [show crcAccStd 0xFFFFFFFF (dataTag ++ intToBytes 0) = 0x29c37638 from by decide]
  rw [show fileHighByte = 128 :: List.replicate 4083 0 from rfl, crcAccStd_cons]
  rw [show crcBits 8 (0x29c37638 ^^^ 128) = 0x38e5e970 from by decide]
  rw [crcAccStd_zeros]

/-- C4: the transmitted frame for the 4084-byte file whose first byte is
0x80 (all exchanges succeeding) carries in its trailing 4 bytes the CRC
the source computes, and that value is NOT the standard CRC-32C of the
first 4092 frame bytes: the source XORs the sign-extended signed char into
the CRC state, so for bodies containing a byte at or above 0x80 the stored
checksum differs from the Castagnoli CRC-32C the claim specifies. -/
theorem c4_signed_char_crc :
    streamRun fileHighByte outAllOK 2 0 (List.replicate 4096 9)
        (List.replicate 16 0) 0 0
      = some ([⟨mkFrame (dataTag ++ intToBytes 0 ++ fileHighByte), 1, 1, some 0⟩],
          true, 0) ∧
    (mkFrame (dataTag ++ intToBytes 0 ++ fileHighByte)).drop 4092
      = intToBytes (crc32cCode (dataTag ++ intToBytes 0 ++ fileHighByte)) ∧
    intToBytes (crc32cCode (dataTag ++ intToBytes 0 ++ fileHighByte))
      ≠ intToBytes (crc32cStd (dataTag ++ intToBytes 0 ++ fileHighByte)) := by
  have hlen := fileHighByte_len
  have hbl : (dataTag ++ intToBytes 0 ++ fileHighByte).length = 4092 := by
    simp [dataTag, intToBytes, hlen]
  refine ⟨?_, List.drop_left' hbl, ?_⟩
  · have hdone : streamRun fileHighByte outAllOK 1 (0 + 4084)
        (List.replicate 4096 0) okr 0 1 = some ([], true, 0) :=
      streamRun_done _ _ _ _ _ _ _ _ (by omega)
    have h1 := streamRun_cons fileHighByte outAllOK 1 0 (List.replicate 4096 9)
      (List.replicate 16 0) 0 0 1 1 okr 0 [] true 0 (by omega)
      (by
        have h := dataLoop_firstOK (outAllOK 0) (List.replicate 16 0) 0 okr rfl
          (by decide) (by decide)
        rwa [show ackOf okr = okr from rfl] at h)
      (by omega) hdone
    have hmin : min 4084 (fileHighByte.length - 0) = 4084 := by omega
    rw [hmin, List.drop_zero] at h1
    rw [show List.take 4084 fileHighByte = fileHighByte
      from List.take_of_length_le (by omega)] at h1
    rw [body_full 0 fileHighByte _ hlen] at h1
    exact h1
  · intro h
    have hXlt : (0x381a168f : Nat) < 2 ^ 32 := by norm_num
    have hYlt : (0x38e5e970 : Nat) < 2 ^ 32 := by norm_num
    have hulf : crcAccCode 0x381a168f (List.replicate 4083 0) < 2 ^ 32 :=
      crcAccCode_zeros_lt 4083 _ hXlt
    have hvlf : crcAccCode 0x38e5e970 (List.replicate 4083 0) < 2 ^ 32 :=
      crcAccCode_zeros_lt 4083 _ hYlt
    rw [crcCode_highByte, crcStd_highByte] at h
    have h2 := intToBytes_inj _ _
      (Nat.xor_lt_two_pow (by norm_num) hulf)
      (Nat.xor_lt_two_pow (by norm_num) hvlf) h
    have h3 : crcAccCode 0x381a168f (List.replicate 4083 0)
        = crcAccCode 0x38e5e970 (List.replicate 4083 0) := by
      have e1 : crcAccCode 0x381a168f (List.replicate 4083 0)
          = 0xFFFFFFFF ^^^ (0xFFFFFFFF ^^^ crcAccCode 0x381a168f (List.replicate 4083 0)) :=
        (Nat.xor_cancel_left _ _).symm
      rw [e1, h2, Nat.xor_cancel_left]
    have h5 := crcAccCode_zeros_inj 4083 _ _ hXlt hYlt h3
    norm_num at h5

/-- A sendString exchange whose first attempt is acknowledged with the
plain OK reply: one attempt, one transmission, sleep unchanged. -/
theorem sendString_firstOK (out : Nat → AttemptOutcome) (bb0 : List Nat) (s0 : Nat)
    (h0 : out 0 = AttemptOutcome.reply okr) :
    sendStringRun out bb0 s0 = ⟨1, 1, okr, s0⟩ := by
  rw [sendStringRun, show (8 : Nat) = 7 + 1 from rfl,
    sendLoop_stop out 7 0 0 bb0 s0 (by
      intro hcon
      rw [show stepBB (out 0) bb0 = okr from by rw [h0]; rfl] at hcon
      exact absurd hcon.1 (by decide))]
  rw [h0]
  rfl

/-- A control step under all-OK channel outcomes, given the frame body. -/
theorem controlStep_allOK (s : List Nat) (i sl : Nat) (B : List Nat)
    (hB : sendStringBody s = some B) :
    controlStep s (outAllOK i) (List.replicate 16 0) sl
      = some (mkFrame B, ⟨1, 1, okr, sl⟩) := by
  simp only [controlStep, hB]
  rw [sendString_firstOK (outAllOK i) (List.replicate 16 0) sl rfl]

/-- The MD5 digest of the 5 bytes hello, as lower-case hex ASCII:
5d41402abc4b2a76b9719d911017c592 (the text-mode read leaves the file
unchanged, as it contains no CR and no Ctrl-Z). -/
theorem md5_hello :
    md5hex (textRead helloFile) =
      [53, 100, 52, 49, 52, 48, 50, 97, 98, 99, 52, 98, 50, 97, 55, 54,
       98, 57, 55, 49, 57, 100, 57, 49, 49, 48, 49, 55, 99, 53, 57, 50] := by
  decide

/-- Streaming of the hello file over an uninitialized buffer2 holding the
byte 170 everywhere: one data frame, real payload the 5 file bytes, and
the rest of the data area carries the stale 170 bytes, not zeros. -/
theorem stream_hello :
    streamRun helloFile outAllOK 2 0 (List.replicate 4096 170)
        (List.replicate 16 0) 0 0
      = some ([⟨mkFrame (dataTag ++ intToBytes 0 ++ helloFile
          ++ List.replicate 4079 170), 1, 1, some 0⟩], true, 0) := by
  have hdone : streamRun helloFile outAllOK 1 (0 + 4084) (List.replicate 4096 0)
      okr 0 1 = some ([], true, 0) := streamRun_done _ _ _ _ _ _ _ _ (by decide)
  have h1 := streamRun_cons helloFile outAllOK 1 0 (List.replicate 4096 170)
    (List.replicate 16 0) 0 0 1 1 okr 0 [] true 0 (by decide)
    (by
      have h := dataLoop_firstOK (outAllOK 0) (List.replicate 16 0) 0 okr rfl
        (by decide) (by decide)
      rwa [show ackOf okr = okr from rfl] at h)
    (by omega) hdone
  rw [show min 4084 (helloFile.length - 0) = 5 from by decide] at h1
  rw [List.drop_zero] at h1
  rw [show List.take 5 helloFile = helloFile from rfl] at h1
  rw [show (8 + 5 : Nat) = 13 from rfl, List.drop_replicate] at h1
  rw [show (4096 - 13 : Nat) = 4083 from rfl] at h1
  rw [body_shortChunk 170 0 4083 5 helloFile rfl (by omega) (by omega)] at h1
  rw [show (4084 - 5 : Nat) = 4079 from rfl] at h1
  exact h1

/-- C7: the transmitted sequence for the 5-byte file hello (all exchanges
succeeding) is NAME=out, SIZE=5, HASH=5d41402abc4b2a76b9719d911017c592
(the MD5 of the 5 bytes hello), START, one data frame with the DATA tag,
big-endian offset 0 and the 5 payload bytes hello, then STOP — but the
4079 bytes following the payload in the data frame are the uninitialized
buffer2 contents (here the byte 170), not zero bytes: buffer2 is never
zeroed before the first data frame, so the transmitted frame differs from
the zero-padded frame the claim specifies. -/
theorem c7_hello_transcript :
    clientRun helloFile outName outAllOK outAllOK (fun _ => List.replicate 16 0)
        (List.replicate 4096 170) (List.replicate 16 0) 2
      = some ([(mkFrame (nameCmd outName ++ List.replicate 4084 0), 1),
          (mkFrame (sizeCmd 5 ++ List.replicate 4086 0), 1),
          (mkFrame (hashCmd [53, 100, 52, 49, 52, 48, 50, 97, 98, 99, 52, 98, 50, 97,
              55, 54, 98, 57, 55, 49, 57, 100, 57, 49, 49, 48, 49, 55, 99, 53, 57, 50]
            ++ List.replicate 4055 0), 1),
          (mkFrame (startCmd ++ List.replicate 4087 0), 1),
          (mkFrame (dataTag ++ intToBytes 0 ++ helloFile ++ List.replicate 4079 170), 1),
          (mkFrame (stopCmd ++ List.replicate 4088 0), 1)], true) ∧
    mkFrame (dataTag ++ intToBytes 0 ++ helloFile ++ List.replicate 4079 170)
      ≠ mkFrame (dataTag ++ intToBytes 0 ++ helloFile ++ List.replicate 4079 0) := by
  constructor
  · simp only [clientRun]
    rw [show ReadAllBytes helloFile = helloFile from rfl]
    rw [md5_hello]
    rw [show helloFile.length = 5 from rfl]
    rw [controlStep_allOK (nameCmd outName) 0 0 (nameCmd outName ++ List.replicate 4084 0)
      (by
        have h := sendStringBody_no_pct (nameCmd outName) (by decide) (by decide)
        rwa [show (4092 - (nameCmd outName).length : Nat) = 4084 from rfl] at h)]
    dsimp only
    rw [if_pos (show (1 : Nat) < 8 from by norm_num)]
    rw [controlStep_allOK (sizeCmd 5) 1 0 (sizeCmd 5 ++ List.replicate 4086 0)
      (by
        have h := sendStringBody_no_pct (sizeCmd 5) (by decide) (by decide)
        rwa [show (4092 - (sizeCmd 5).length : Nat) = 4086 from rfl] at h)]
    dsimp only
    rw [if_pos (show (1 : Nat) < 8 from by norm_num)]
    rw [controlStep_allOK (hashCmd [53, 100, 52, 49, 52, 48, 50, 97, 98, 99, 52, 98,
        50, 97, 55, 54, 98, 57, 55, 49, 57, 100, 57, 49, 49, 48, 49, 55, 99, 53, 57, 50])
      2 0 (hashCmd [53, 100, 52, 49, 52, 48, 50, 97, 98, 99, 52, 98, 50, 97, 55, 54,
        98, 57, 55, 49, 57, 100, 57, 49, 49, 48, 49, 55, 99, 53, 57, 50]
        ++ List.replicate 4055 0)
      (by
        have h := sendStringBody_no_pct (hashCmd [53, 100, 52, 49, 52, 48, 50, 97, 98,
          99, 52, 98, 50, 97, 55, 54, 98, 57, 55, 49, 57, 100, 57, 49, 49, 48, 49, 55,
          99, 53, 57, 50]) (by decide) (by decide)
        rwa [show (4092 - (hashCmd [53, 100, 52, 49, 52, 48, 50, 97, 98, 99, 52, 98,
          50, 97, 55, 54, 98, 57, 55, 49, 57, 100, 57, 49, 49, 48, 49, 55, 99, 53, 57,
          50]).length : Nat) = 4055 from rfl] at h)]
    dsimp only
    rw [if_pos (show (1 : Nat) < 8 from by norm_num)]
    rw [controlStep_allOK startCmd 3 0 (startCmd ++ List.replicate 4087 0)
      (by
        have h := sendStringBody_no_pct startCmd (by decide) (by decide)
        rwa [show (4092 - startCmd.length : Nat) = 4087 from rfl] at h)]
    dsimp only
    rw [if_pos (show (1 : Nat) < 8 from by norm_num)]
    rw [stream_hello]
    dsimp only
    rw [controlStep_allOK stopCmd 4 0 (stopCmd ++ List.replicate 4088 0)
      (by
        have h := sendStringBody_no_pct stopCmd (by decide) (by decide)
        rwa [show (4092 - stopCmd.length : Nat) = 4088 from rfl] at h)]
    dsimp only
    rfl
  · intro h
    simp only [mkFrame] at h
    have e : ((dataTag ++ intToBytes 0 ++ helloFile) ++ List.replicate 4079 170).length
        = ((dataTag ++ intToBytes 0 ++ helloFile) ++ List.replicate 4079 0).length := by
      simp only [List.length_append, List.length_replicate]
    have h2 := List.append_inj_left h e
    have h3 := List.append_cancel_left h2
    rw [show (4079 : Nat) = 4078 + 1 from rfl, List.replicate_succ,
      List.replicate_succ] at h3
    injection h3 with h4 _
    exact absurd h4 (by norm_num)
